import Mathlib

/-!
Shallow embedding of `pkg/controller/cache.go` of the haproxy-ingress
controller: the dirty-state aggregator (`Notify`, `SyncNewObjects`, the
`GetDirty*` snapshot readers), the secret/credential resolver
(`buildSecretName`, `GetKey`, `GetTLSSecretContent`), the ACME token store
(`GetToken`, `SetToken`) and the terminating-pod selector
(`GetTerminatingPods`, `isTerminatingPod`).

Go byte slices are modelled as Lean strings, Go maps as association lists,
the Kubernetes object store (listers plus client) as explicit lists of
objects threaded through the functions, and the external crypto/PEM
primitives as an explicit record of abstract functions.  Remote write
errors of the Kubernetes API are not modelled (the code surfaces them
verbatim and they are outside the control flow the claims are about).
-/

namespace K8sCache

/-- Bytes of a secret or config value, modelled as a Lean string. -/
abbrev Bytes := String

/-- The (namespace, name) identity of a cluster object. -/
structure ObjMeta where
  ns : String
  name : String
deriving DecidableEq, Repr

/-- An ingress object; only its identity matters to the aggregator. -/
structure Ingress where
  meta : ObjMeta
deriving DecidableEq, Repr

/-- A service: identity plus `Spec.Selector` (a Go `map[string]string`,
modelled as an association list). -/
structure Service where
  meta : ObjMeta
  selector : List (String × String)
deriving DecidableEq, Repr

/-- An endpoints object; only its identity matters to the aggregator. -/
structure Endpoints where
  meta : ObjMeta
deriving DecidableEq, Repr

/-- A secret: identity, `Type` and `Data` (`map[string][]byte`). -/
structure Secret where
  meta : ObjMeta
  type : String
  data : List (String × Bytes)
deriving DecidableEq, Repr

/-- A config map: identity and `Data`; a Go nil map is `none`, distinct
from an empty map. -/
structure ConfigMap where
  meta : ObjMeta
  data : Option (List (String × String))
deriving DecidableEq, Repr

/-- A pod: identity, labels, `DeletionTimestamp` (nil-able),
`Status.Reason` and `Status.PodIP`. -/
structure Pod where
  meta : ObjMeta
  labels : List (String × String)
  deletionTimestamp : Option Nat
  statusReason : String
  podIP : String
deriving DecidableEq, Repr

/-- Go `strings.Split cs "/"` on the character list of a key: splits at
every slash, yielding one (possibly empty) part more than the number of
slashes. -/
def splitSlash : List Char → List (List Char)
  | [] => [[]]
  | c :: rest =>
    match splitSlash rest with
    | [] => [[]]
    | p :: ps => if c = '/' then [] :: p :: ps else (c :: p) :: ps

/-- Embeds `cache.SplitMetaNamespaceKey` of k8s client-go (an external
library this file depends on): one part means a bare name with empty
namespace, two parts mean namespace and name, anything else is an error. -/
def splitMetaNamespaceKey (key : String) : Except String (String × String) :=
  match splitSlash key.toList with
  | [name] => .ok ("", ⟨name⟩)
  | [ns, name] => .ok (⟨ns⟩, ⟨name⟩)
  | _ => .error ("unexpected key format: " ++ key)

/-- Embeds `k8scache.buildSecretName` (cache.go lines 247-265); the
receiver is reduced to its only used field `crossNS`
(`--allow-cross-namespace`). -/
def buildSecretName (crossNS : Bool) (defaultNamespace secretName : String) :
    Except String (String × String) :=
  match splitMetaNamespaceKey secretName with
  | .error e => .error e
  | .ok (ns, name) =>
    if defaultNamespace = "" then .ok (ns, name)
    else if ns = "" then .ok (defaultNamespace, name)
    else if crossNS || ns = defaultNamespace then .ok (ns, name)
    else .error ("trying to read secret " ++ secretName ++ " from namespace " ++
      defaultNamespace ++ ", but cross-namespace reading is disabled; " ++
      "use --allow-cross-namespace to enable")

/-- A watched object as delivered to `Notify`, tagged by resource kind
(the Go code dispatches on the dynamic type of its empty-interface
arguments). -/
inductive KObj where
  | ing (i : Ingress)
  | svc (s : Service)
  | sec (s : Secret)
  | ep (e : Endpoints)
  | cm (c : ConfigMap)
  | pod (p : Pod)
deriving DecidableEq, Repr

/-- The mutable state of `k8scache` (cache.go lines 52-84) together with
two effect logs: the keys passed to the external
`controller.DeleteSecret` hook, and the fire times of the debounce
timers armed with `time.AfterFunc` (each fires 500 ms after arming). -/
structure CacheState where
  crossNS : Bool := false
  globalConfigMapKey : String := ""
  tcpConfigMapKey : String := ""
  acmeSecretKeyName : String := ""
  acmeTokenConfigmapName : String := ""
  clear : Bool := true
  needResync : Bool := false
  globalConfigMapData : Option (List (String × String)) := none
  tcpConfigMapData : Option (List (String × String)) := none
  newGlobalConfigMapData : Option (List (String × String)) := none
  newTCPConfigMapData : Option (List (String × String)) := none
  delIngresses : List Ingress := []
  updIngresses : List Ingress := []
  addIngresses : List Ingress := []
  newEndpoints : List Endpoints := []
  delServices : List Service := []
  updServices : List Service := []
  addServices : List Service := []
  delSecrets : List Secret := []
  updSecrets : List Secret := []
  addSecrets : List Secret := []
  newPods : List Pod := []
  deleteSecretCalls : List String := []
  armedNotifyTimers : List Nat := []
deriving DecidableEq, Repr

/-- The state right after `createCache` (cache.go lines 123-135):
`clear = true`, `needResync = false`, all lists empty. -/
def initialCacheState : CacheState := {}

/-- The `old != nil` arm of `Notify` (cache.go lines 522-539): only
deletions (`cur == nil`) are recorded, and only for ingress, service and
secret kinds; a secret deletion also calls `controller.DeleteSecret`
synchronously with the "namespace/name" key. -/
def notifyClassifyOld (old cur : Option KObj) (s : CacheState) : CacheState :=
  match old with
  | none => s
  | some (.ing i) =>
    if cur = none then { s with delIngresses := s.delIngresses ++ [i] } else s
  | some (.svc v) =>
    if cur = none then { s with delServices := s.delServices ++ [v] } else s
  | some (.sec se) =>
    if cur = none then
      { s with delSecrets := s.delSecrets ++ [se],
               deleteSecretCalls :=
                 s.deleteSecretCalls ++ [se.meta.ns ++ "/" ++ se.meta.name] }
    else s
  | some _ => s

/-- The `cur != nil` arm of `Notify` (cache.go lines 540-577): adds
versus updates for ingress, service and secret; flat observed lists for
endpoints and pods; pending data for the two distinguished config maps
(first matching key wins, like the Go `switch`). -/
def notifyClassifyCur (old cur : Option KObj) (s : CacheState) : CacheState :=
  match cur with
  | none => s
  | some (.ing i) =>
    if old = none then { s with addIngresses := s.addIngresses ++ [i] }
    else { s with updIngresses := s.updIngresses ++ [i] }
  | some (.ep e) => { s with newEndpoints := s.newEndpoints ++ [e] }
  | some (.svc v) =>
    if old = none then { s with addServices := s.addServices ++ [v] }
    else { s with updServices := s.updServices ++ [v] }
  | some (.sec se) =>
    if old = none then { s with addSecrets := s.addSecrets ++ [se] }
    else { s with updSecrets := s.updSecrets ++ [se] }
  | some (.cm c) =>
    if c.meta.ns ++ "/" ++ c.meta.name = s.globalConfigMapKey then
      { s with newGlobalConfigMapData := c.data }
    else if c.meta.ns ++ "/" ++ c.meta.name = s.tcpConfigMapKey then
      { s with newTCPConfigMapData := c.data }
    else s
  | some (.pod p) => { s with newPods := s.newPods ++ [p] }

/-- The resync arm of `Notify` (cache.go lines 519-521): both arguments
nil request a full resync. -/
def notifyResync (old cur : Option KObj) (s : CacheState) : CacheState :=
  if old = none ∧ cur = none then { s with needResync := true } else s

/-- The debounce arm of `Notify` (cache.go lines 578-583): when `clear`
is still set, arm a `time.AfterFunc` timer firing 500 ms from now. -/
def notifyDebounce (now : Nat) (s : CacheState) : CacheState :=
  if s.clear then
    { s with armedNotifyTimers := s.armedNotifyTimers ++ [now + 500] }
  else s

/-- Embeds `k8scache.Notify` (cache.go lines 513-585), in the source's
order: resync check, old-value classification, new-value classification,
debounce arming, then `clear` is always reset.  `now` is the wall-clock
instant of the call. -/
def notify (now : Nat) (old cur : Option KObj) (s : CacheState) : CacheState :=
  { notifyDebounce now
      (notifyClassifyCur old cur
        (notifyClassifyOld old cur
          (notifyResync old cur s))) with clear := false }

/-- A timed event stream: `Notify` calls with their instants, run in
order (no intervening `SyncNewObjects`). -/
def notifyRun (s : CacheState) (evs : List (Nat × Option KObj × Option KObj)) :
    CacheState :=
  evs.foldl (fun st e => notify e.1 e.2.1 e.2.2 st) s

/-- Embeds `k8scache.SyncNewObjects` (cache.go lines 679-714): clears
the pod, endpoints, secret and ingress lists, promotes pending config
data, resets `clear` and `needResync`.  Exactly as in the source, the
three services lists are not touched. -/
def syncNewObjects (s : CacheState) : CacheState :=
  let s := { s with
    newPods := [], newEndpoints := [],
    delSecrets := [], updSecrets := [], addSecrets := [],
    delIngresses := [], updIngresses := [], addIngresses := [] }
  let s := match s.newGlobalConfigMapData with
    | some d => { s with globalConfigMapData := some d, newGlobalConfigMapData := none }
    | none => s
  let s := match s.newTCPConfigMapData with
    | some d => { s with tcpConfigMapData := some d, newTCPConfigMapData := none }
    | none => s
  { s with clear := true, needResync := false }

/-- Embeds `k8scache.GetDirtyIngresses`; the Go code returns fresh
copies of the slices, which is the identity on the modelled values. -/
def getDirtyIngresses (s : CacheState) : List Ingress × List Ingress × List Ingress :=
  (s.delIngresses, s.updIngresses, s.addIngresses)

/-- Embeds `k8scache.GetDirtyEndpoints`. -/
def getDirtyEndpoints (s : CacheState) : List Endpoints :=
  s.newEndpoints

/-- Embeds `k8scache.GetDirtyServices` (cache.go lines 630-646). -/
def getDirtyServices (s : CacheState) : List Service × List Service × List Service :=
  (s.delServices, s.updServices, s.addServices)

/-- Embeds `k8scache.GetDirtySecrets`. -/
def getDirtySecrets (s : CacheState) : List Secret × List Secret × List Secret :=
  (s.delSecrets, s.updSecrets, s.addSecrets)

/-- Embeds `k8scache.GetDirtyPods`. -/
def getDirtyPods (s : CacheState) : List Pod :=
  s.newPods

/-- Embeds `k8scache.NeedResync`. -/
def needResyncState (s : CacheState) : Bool :=
  s.needResync

/-- The Kubernetes object store seen through the listers and written
through the client: the local mirror and the remote store are collapsed
into one consistent view, as the code assumes between its read and
write. -/
structure Cluster where
  secrets : List Secret := []
  configMaps : List ConfigMap := []
  pods : List Pod := []
deriving DecidableEq, Repr

/-- Lister lookup of a secret by namespace and name. -/
def Cluster.findSecret (cl : Cluster) (ns name : String) : Option Secret :=
  cl.secrets.find? (fun s => s.meta.ns == ns && s.meta.name == name)

/-- Lister lookup of a config map by namespace and name. -/
def Cluster.findConfigMap (cl : Cluster) (ns name : String) : Option ConfigMap :=
  cl.configMaps.find? (fun c => c.meta.ns == ns && c.meta.name == name)

/-- Embeds `k8scache.GetSecret`: split the "namespace/name" key, then
look the secret up in the lister; a missing object is an error. -/
def getSecret (cl : Cluster) (secretName : String) : Except String Secret :=
  match splitMetaNamespaceKey secretName with
  | .error e => .error e
  | .ok (ns, name) =>
    match cl.findSecret ns name with
    | some s => .ok s
    | none => .error ("secret " ++ secretName ++ " was not found")

/-- Embeds `k8scache.GetConfigMap`: split the key, then look the config
map up in the lister. -/
def getConfigMap (cl : Cluster) (configMapName : String) : Except String ConfigMap :=
  match splitMetaNamespaceKey configMapName with
  | .error e => .error e
  | .ok (ns, name) =>
    match cl.findConfigMap ns name with
    | some c => .ok c
    | none => .error ("configmap " ++ configMapName ++ " was not found")

/-- Embeds `k8scache.CreateOrUpdateSecret` (cache.go lines 481-489):
lister lookup decides between a remote create (append) and a remote
update (replace in place); remote write errors are not modelled. -/
def createOrUpdateSecret (cl : Cluster) (secret : Secret) : Cluster :=
  if (cl.findSecret secret.meta.ns secret.meta.name).isSome then
    { cl with secrets := cl.secrets.map (fun s =>
        if s.meta.ns == secret.meta.ns && s.meta.name == secret.meta.name
        then secret else s) }
  else
    { cl with secrets := cl.secrets ++ [secret] }

/-- Embeds `k8scache.CreateOrUpdateConfigMap` (cache.go lines 491-499). -/
def createOrUpdateConfigMap (cl : Cluster) (cm : ConfigMap) : Cluster :=
  if (cl.findConfigMap cm.meta.ns cm.meta.name).isSome then
    { cl with configMaps := cl.configMaps.map (fun c =>
        if c.meta.ns == cm.meta.ns && c.meta.name == cm.meta.name
        then cm else c) }
  else
    { cl with configMaps := cl.configMaps ++ [cm] }

/-- `api.TLSPrivateKeyKey`. -/
def tlsPrivateKeyKey : String := "tls.key"

/-- `api.TLSCertKey`. -/
def tlsCertKey : String := "tls.crt"

/-- `api.SecretTypeTLS`. -/
def secretTypeTLS : String := "kubernetes.io/tls"

/-- An RSA private key, abstract: the claims are about when keys are
parsed, generated and persisted, not about the arithmetic inside. -/
abbrev RSAKey := Nat

/-- A parsed X.509 certificate, abstract for the same reason. -/
abbrev Certificate := Nat

/-- The external crypto and PEM primitives used by cache.go
(`pem.Decode`, `x509.ParsePKCS1PrivateKey`, `x509.ParseCertificate`,
`rsa.GenerateKey` with its bit size, `x509.MarshalPKCS1PrivateKey`,
`pem.EncodeToMemory`), taken as an abstract record: the theorems hold
for every implementation of this record. -/
structure CryptoPrims where
  pemDecode : Bytes → Option Bytes
  parsePKCS1PrivateKey : Bytes → Except String RSAKey
  parseCertificate : Bytes → Except String Certificate
  generateKey : Nat → Except String RSAKey
  marshalPKCS1PrivateKey : RSAKey → Bytes
  pemEncodeRSA : Bytes → Bytes

/-- Embeds `k8scache.GetKey` (cache.go lines 356-395).  `key` stays nil
exactly when `GetSecret` failed, because every parse failure of a found
secret returns early; only then is a 2048-bit key generated, persisted
with create-or-update under `tls.key`, and returned.  The possibly
updated cluster is returned alongside the key. -/
def getKey (pr : CryptoPrims) (acmeSecretKeyName : String) (cl : Cluster) :
    Except String (RSAKey × Cluster) :=
  match getSecret cl acmeSecretKeyName with
  | .ok secret =>
    match secret.data.lookup tlsPrivateKeyKey with
    | none => .error ("secret " ++ acmeSecretKeyName ++ " does not have a key")
    | some pemKey =>
      match pr.pemDecode pemKey with
      | none => .error ("secret " ++ acmeSecretKeyName ++
          " has not a valid pem encoded private key")
      | some der =>
        match pr.parsePKCS1PrivateKey der with
        | .error e => .error ("error parsing acme client private key: " ++ e)
        | .ok key => .ok (key, cl)
  | .error _ =>
    match splitMetaNamespaceKey acmeSecretKeyName with
    | .error e => .error e
    | .ok (ns, name) =>
      match pr.generateKey 2048 with
      | .error e => .error e
      | .ok key =>
        let pemEncode := pr.pemEncodeRSA (pr.marshalPKCS1PrivateKey key)
        .ok (key, createOrUpdateSecret cl
          ⟨⟨ns, name⟩, "", [(tlsPrivateKeyKey, pemEncode)]⟩)

/-- Embeds `k8scache.GetTLSSecretContent` (cache.go lines 398-422):
every failure (missing secret, missing `tls.crt` or `tls.key` entry,
failed PEM decode, failed parse) yields `none`; only full success
yields the parsed pair. -/
def getTLSSecretContent (pr : CryptoPrims) (cl : Cluster) (secretName : String) :
    Option (Certificate × RSAKey) :=
  match getSecret cl secretName with
  | .error _ => none
  | .ok secret =>
    match secret.data.lookup tlsCertKey, secret.data.lookup tlsPrivateKeyKey with
    | some pemCrt, some pemKey =>
      match pr.pemDecode pemCrt, pr.pemDecode pemKey with
      | some derCrt, some derKey =>
        match pr.parseCertificate derCrt, pr.parsePKCS1PrivateKey derKey with
        | .ok crt, .ok key => some (crt, key)
        | _, _ => none
      | _, _ => none
    | _, _ => none

/-- Go `strings.HasPrefix`. -/
def strStartsWith (pfx s : String) : Bool :=
  pfx.toList.isPrefixOf s.toList

/-- Go `strings.TrimPrefix`: drops `pfx` when present, otherwise
returns the string unchanged. -/
def strTrimStart (pfx s : String) : String :=
  if strStartsWith pfx s then ⟨s.toList.drop pfx.toList.length⟩ else s

/-- Go map assignment `m[k] = v` on an association list: replace the
existing entry or add one. -/
def upsertEntry (l : List (String × α)) (k : String) (v : α) : List (String × α) :=
  match l with
  | [] => [(k, v)]
  | (k', v') :: rest =>
    if k' == k then (k, v) :: rest else (k', v') :: upsertEntry rest k v

/-- Go `delete(m, k)` on an association list. -/
def eraseEntry (l : List (String × α)) (k : String) : List (String × α) :=
  l.filter (fun p => p.1 != k)

/-- Go map indexing `m[k]` where the map itself may be nil. -/
def mapLookup (m : Option (List (String × String))) (k : String) : Option String :=
  match m with
  | none => none
  | some d => d.lookup k

/-- Embeds `k8scache.GetToken` (cache.go lines 442-456): every failure
(missing config map, missing domain entry, value not starting with
`uri ++ "="`) yields the empty string, never an error. -/
def getToken (acmeTokenConfigmapName : String) (cl : Cluster)
    (domain uri : String) : String :=
  match getConfigMap cl acmeTokenConfigmapName with
  | .error _ => ""
  | .ok config =>
    match mapLookup config.data domain with
    | none => ""
    | some data =>
      if strStartsWith (uri ++ "=") data then strTrimStart (uri ++ "=") data
      else ""

/-- Embeds `k8scache.SetToken` (cache.go lines 459-479): fetch or build
the shared config map, then either store `uri ++ "=" ++ token` under the
domain or delete the domain entry when the token is empty, and
create-or-update the object. -/
def setToken (acmeTokenConfigmapName : String) (cl : Cluster)
    (domain uri token : String) : Except String Cluster :=
  match splitMetaNamespaceKey acmeTokenConfigmapName with
  | .error e => .error e
  | .ok (ns, name) =>
    let config : ConfigMap :=
      match cl.findConfigMap ns name with
      | some c => c
      | none => ⟨⟨ns, name⟩, none⟩
    let d := match config.data with | none => [] | some d => d
    let d' := if token != "" then upsertEntry d domain (uri ++ "=" ++ token)
              else eraseEntry d domain
    .ok (createOrUpdateConfigMap cl { config with data := some d' })

/-- The conjunction of equality matches that `labels.Parse` of the
joined `k=v` selector entries checks on a pod's labels; the empty
selector parses to `labels.Everything()`, which matches every pod. -/
def selectorMatches (sel labels : List (String × String)) : Bool :=
  sel.all (fun kv =>
    match labels.lookup kv.1 with
    | some v => v == kv.2
    | none => false)

/-- Embeds `isTerminatingPod` (cache.go lines 224-237): same namespace,
all selector entries present with equal values, a set deletion
timestamp, a reason other than NodeLost, and a non-empty pod IP. -/
def isTerminatingPod (svc : Service) (pod : Pod) : Bool :=
  if svc.meta.ns != pod.meta.ns then false
  else if !(selectorMatches svc.selector pod.labels) then false
  else pod.deletionTimestamp.isSome && pod.statusReason != "NodeLost" &&
    pod.podIP != ""

/-- Embeds `k8scache.GetTerminatingPods` (cache.go lines 199-221): list
the pods of the service's namespace matching the label selector built
from `Spec.Selector`, then keep those `isTerminatingPod` accepts.
`labels.Parse` cannot fail on entries of a validated Kubernetes label
map, so the parse-error path is not modelled. -/
def getTerminatingPods (cl : Cluster) (svc : Service) : List Pod :=
  (cl.pods.filter (fun p =>
    p.meta.ns == svc.meta.ns && selectorMatches svc.selector p.labels)).filter
    (fun p => isTerminatingPod svc p)

/-- A concrete instantiation of the crypto primitives for witnesses and
counterexamples: decode is the identity, parsing always succeeds,
generation returns the requested bit count as the key id. -/
def prims0 : CryptoPrims where
  pemDecode := fun b => some b
  parsePKCS1PrivateKey := fun _ => .ok 1
  parseCertificate := fun _ => .ok 2
  generateKey := fun bits => .ok bits
  marshalPKCS1PrivateKey := fun _ => "der"
  pemEncodeRSA := fun b => b

/-- A cluster where the designated ACME key secret exists but has no
`tls.key` entry. -/
def clC4 : Cluster := ⟨[⟨⟨"acme", "key"⟩, "", []⟩], [], []⟩

/-- A pod payload used in the concrete aggregator runs. -/
def podX : Pod := ⟨⟨"ns1", "pod1"⟩, [], none, "", ""⟩

/-- A service payload used in the concrete aggregator runs. -/
def svcX : Service := ⟨⟨"ns1", "svc1"⟩, []⟩

/-- A secret payload used in the concrete aggregator runs. -/
def secX : Secret := ⟨⟨"ns1", "sec1"⟩, "", []⟩

/-- `isTerminatingPod` as one boolean conjunction: same namespace, all
selector entries matched, deletion timestamp set, reason other than
NodeLost, non-empty pod IP. -/
theorem isTerminatingPod_eq (svc : Service) (p : Pod) :
    isTerminatingPod svc p =
      (p.meta.ns == svc.meta.ns && selectorMatches svc.selector p.labels &&
       (p.deletionTimestamp.isSome && p.statusReason != "NodeLost" &&
        p.podIP != "")) := by
  unfold isTerminatingPod
  by_cases hns : svc.meta.ns = p.meta.ns
  · cases h2 : selectorMatches svc.selector p.labels <;> simp [hns, h2, bne]
  · have hns' : p.meta.ns ≠ svc.meta.ns := Ne.symm hns
    simp [hns, hns', bne]

/-- C5: for every default namespace and reference, `buildSecretName` with a
namespaced reference whose namespace differs from the non-empty default
fails when cross-namespace access is disabled and returns the parsed pair
when it is enabled. -/
theorem C5_buildSecretName_cross_namespace
    (defaultNamespace ref ns name : String)
    (hsplit : splitMetaNamespaceKey ref = .ok (ns, name))
    (hdef : defaultNamespace ≠ "") (hns : ns ≠ "")
    (hdiff : ns ≠ defaultNamespace) :
    (∃ e, buildSecretName false defaultNamespace ref = .error e) ∧
      buildSecretName true defaultNamespace ref = .ok (ns, name) := by
  unfold buildSecretName
  rw [hsplit]
  simp [hdef, hns, hdiff]

/-- C5 witness: `defaultNamespace = "a"`, `ref = "b/secret1"`. -/
theorem C5_buildSecretName_cross_namespace_witness :
    (∃ e, buildSecretName false "a" "b/secret1" = .error e) ∧
      buildSecretName true "a" "b/secret1" = .ok ("b", "secret1") :=
  C5_buildSecretName_cross_namespace "a" "b/secret1" "b" "secret1" rfl
    (by decide) (by decide) (by decide)

/-- C9: with an empty default namespace `buildSecretName` returns exactly
the parsed reference, with no cross-namespace check, for every value of the
cross-namespace flag: a namespaced reference succeeds even with the flag
disabled, and a bare reference yields an empty namespace. -/
theorem C9_buildSecretName_empty_default (crossNS : Bool) (ref : String) :
    buildSecretName crossNS "" ref = splitMetaNamespaceKey ref ∧
      buildSecretName crossNS "" "b/secret1" = .ok ("b", "secret1") ∧
      buildSecretName crossNS "" "secret1" = .ok ("", "secret1") := by
  refine ⟨?_, by cases crossNS <;> rfl, by cases crossNS <;> rfl⟩
  unfold buildSecretName
  cases h : splitMetaNamespaceKey ref with
  | error e => rfl
  | ok p => simp

/-- C7: a pod is in `getTerminatingPods` of a service exactly when it is a
pod of the service's namespace whose labels match every selector entry,
whose deletion timestamp is set, whose last termination reason is not
NodeLost, and whose pod IP is non-empty. -/
theorem C7_getTerminatingPods_mem (cl : Cluster) (svc : Service) (p : Pod) :
    p ∈ getTerminatingPods cl svc ↔
      (p ∈ cl.pods ∧ p.meta.ns = svc.meta.ns ∧
       selectorMatches svc.selector p.labels = true ∧
       p.deletionTimestamp.isSome = true ∧ p.statusReason ≠ "NodeLost" ∧
       p.podIP ≠ "") := by
  simp only [getTerminatingPods, List.mem_filter, isTerminatingPod_eq,
    Bool.and_eq_true, beq_iff_eq, bne_iff_ne]
  tauto

/-- C10: a service with an empty selector map selects every pod of its
namespace, so `getTerminatingPods` returns all terminating pods of the
namespace. -/
theorem C10_getTerminatingPods_empty_selector (cl : Cluster) (svc : Service)
    (hsel : svc.selector = []) :
    getTerminatingPods cl svc = cl.pods.filter (fun p =>
      p.meta.ns == svc.meta.ns &&
      (p.deletionTimestamp.isSome && p.statusReason != "NodeLost" &&
       p.podIP != "")) := by
  unfold getTerminatingPods
  rw [List.filter_filter]
  apply List.filter_congr
  intro p _
  rw [isTerminatingPod_eq, hsel]
  simp only [selectorMatches, List.all_nil, Bool.and_true, Bool.true_and]
  cases h : (p.meta.ns == svc.meta.ns) <;> simp_all [beq_iff_eq]

/-- C10 witness: one terminating and one NodeLost pod in the namespace of a
selector-less service. -/
theorem C10_getTerminatingPods_empty_selector_witness :
    getTerminatingPods
        ⟨[], [],
         [⟨⟨"ns1", "pod1"⟩, [("app", "x")], some 7, "", "10.0.0.1"⟩,
          ⟨⟨"ns1", "pod2"⟩, [], some 7, "NodeLost", "10.0.0.2"⟩]⟩
        ⟨⟨"ns1", "svc1"⟩, []⟩ =
      [⟨⟨"ns1", "pod1"⟩, [("app", "x")], some 7, "", "10.0.0.1"⟩] := by
  rw [C10_getTerminatingPods_empty_selector _ _ rfl]
  rfl

theorem strStartsWith_append (a b : String) : strStartsWith a (a ++ b) = true := by
  unfold strStartsWith
  rw [ List.isPrefixOf_iff_prefix]
  show a.toList <+: (a ++ b).toList
  simp only [String.toList, String.data_append]
  exact List.prefix_append _ _

theorem strTrimStart_append (a b : String) : strTrimStart a (a ++ b) = b := by
  unfold strTrimStart
  simp only [strStartsWith_append, if_true]
  apply String.ext
  simp [String.toList, String.data_append, List.drop_left]

theorem lookup_upsertEntry_self (l : List (String × α)) (k : String) (v : α) :
    (upsertEntry l k v).lookup k = some v := by
  induction l with
  | nil => simp [upsertEntry, List.lookup]
  | cons kv rest ih =>
    obtain ⟨k', v'⟩ := kv
    by_cases h : k' = k
    · simp [upsertEntry, h, List.lookup]
    · have hne : (k == k') = false := beq_eq_false_iff_ne.mpr (Ne.symm h)
      simp [upsertEntry, h, List.lookup, hne, ih]

theorem lookup_eraseEntry_self (l : List (String × α)) (k : String) :
    (eraseEntry l k).lookup k = none := by
  induction l with
  | nil => rfl
  | cons kv rest ih =>
    obtain ⟨k', v'⟩ := kv
    by_cases h : k' = k
    · have hcond : (k' != k) = false := by simp [bne, h]
      simpa [eraseEntry, List.filter_cons, hcond] using ih
    · have hcond : (k' != k) = true := bne_iff_ne.mpr h
      have hne : (k == k') = false := beq_eq_false_iff_ne.mpr (Ne.symm h)
      simpa [eraseEntry, List.filter_cons, hcond, List.lookup, hne] using ih

/-- Replacing every element a predicate accepts makes `find?` return the
replacement, provided some element was accepted. -/
theorem find?_map_replace {β : Type} (p : β → Bool) (x : β) (hx : p x = true) :
    ∀ l : List β, (l.find? p).isSome = true →
      (l.map (fun y => if p y then x else y)).find? p = some x := by
  intro l
  induction l with
  | nil => intro h; simp at h
  | cons y rest ih =>
    intro h
    by_cases hy : p y = true
    · rw [List.map_cons, if_pos hy, List.find?_cons_of_pos _ hx]
    · rw [List.find?_cons_of_neg _ hy] at h
      rw [List.map_cons, if_neg hy, List.find?_cons_of_neg _ hy]
      exact ih h

theorem findConfigMap_createOrUpdateConfigMap (cl : Cluster) (cm : ConfigMap)
    (ns nm : String) (hns : cm.meta.ns = ns) (hnm : cm.meta.name = nm) :
    (createOrUpdateConfigMap cl cm).findConfigMap ns nm = some cm := by
  subst hns; subst hnm
  have hx : (cm.meta.ns == cm.meta.ns && cm.meta.name == cm.meta.name) = true := by
    simp
  unfold createOrUpdateConfigMap
  by_cases h : (cl.findConfigMap cm.meta.ns cm.meta.name).isSome = true
  · rw [if_pos h]
    unfold Cluster.findConfigMap at h ⊢
    exact find?_map_replace _ cm hx cl.configMaps h
  · rw [if_neg h]
    unfold Cluster.findConfigMap at h ⊢
    rw [List.find?_append, Option.not_isSome_iff_eq_none.mp h, Option.none_or]
    exact List.find?_cons_of_pos _ hx

/-- C6: `SetToken` followed by `GetToken` with the same domain and uri
returns the stored token; an empty token removes the domain entry, so a
following `GetToken` returns the empty string; and `GetToken` is total —
every failure mode (missing config map, missing domain entry, value
without the `uri ++ "="` head) yields the empty string. -/
theorem C6_setToken_getToken_roundtrip
    (cmName ns nm domain uri token : String) (cl : Cluster)
    (hsplit : splitMetaNamespaceKey cmName = .ok (ns, nm)) :
    (token ≠ "" → ∀ cl₁, setToken cmName cl domain uri token = .ok cl₁ →
        getToken cmName cl₁ domain uri = token) ∧
    (∀ cl₁, setToken cmName cl domain uri "" = .ok cl₁ →
        getToken cmName cl₁ domain uri = "") ∧
    (∀ cl₀ e, getConfigMap cl₀ cmName = .error e →
        getToken cmName cl₀ domain uri = "") ∧
    (∀ cl₀ config, getConfigMap cl₀ cmName = .ok config →
        mapLookup config.data domain = none →
        getToken cmName cl₀ domain uri = "") ∧
    (∀ cl₀ config data, getConfigMap cl₀ cmName = .ok config →
        mapLookup config.data domain = some data →
        strStartsWith (uri ++ "=") data = false →
        getToken cmName cl₀ domain uri = "") := by
  refine ⟨?_, ?_, ?_, ?_, ?_⟩
  · intro htok cl₁ hset
    have hbne : (token != "") = true := bne_iff_ne.mpr htok
    unfold setToken at hset
    rw [hsplit] at hset
    simp only [hbne, if_true] at hset
    cases hfind : cl.findConfigMap ns nm with
    | some c =>
      rw [hfind] at hset
      simp only [Except.ok.injEq] at hset
      subst hset
      obtain ⟨⟨cns, cname⟩, cdata⟩ := c
      have hc := List.find?_some hfind
      rw [Bool.and_eq_true, beq_iff_eq, beq_iff_eq] at hc
      dsimp only at hc
      obtain ⟨h1, h2⟩ := hc
      subst h1; subst h2
      unfold getToken getConfigMap
      rw [hsplit]
      dsimp only
      rw [findConfigMap_createOrUpdateConfigMap _ _ _ _ rfl rfl]
      simp [mapLookup, lookup_upsertEntry_self, strStartsWith_append,
        strTrimStart_append]
    | none =>
      rw [hfind] at hset
      simp only [Except.ok.injEq] at hset
      subst hset
      unfold getToken getConfigMap
      rw [hsplit]
      dsimp only
      rw [findConfigMap_createOrUpdateConfigMap _ _ _ _ rfl rfl]
      simp [mapLookup, lookup_upsertEntry_self, strStartsWith_append,
        strTrimStart_append]
  · intro cl₁ hset
    unfold setToken at hset
    rw [hsplit] at hset
    simp only [bne_self_eq_false, Bool.false_eq_true, if_false] at hset
    cases hfind : cl.findConfigMap ns nm with
    | some c =>
      rw [hfind] at hset
      simp only [Except.ok.injEq] at hset
      subst hset
      obtain ⟨⟨cns, cname⟩, cdata⟩ := c
      have hc := List.find?_some hfind
      rw [Bool.and_eq_true, beq_iff_eq, beq_iff_eq] at hc
      dsimp only at hc
      obtain ⟨h1, h2⟩ := hc
      subst h1; subst h2
      unfold getToken getConfigMap
      rw [hsplit]
      dsimp only
      rw [findConfigMap_createOrUpdateConfigMap _ _ _ _ rfl rfl]
      simp [mapLookup, lookup_eraseEntry_self]
    | none =>
      rw [hfind] at hset
      simp only [Except.ok.injEq] at hset
      subst hset
      unfold getToken getConfigMap
      rw [hsplit]
      dsimp only
      rw [findConfigMap_createOrUpdateConfigMap _ _ _ _ rfl rfl]
      simp [mapLookup, lookup_eraseEntry_self]
  · intro cl₀ e h
    unfold getToken
    rw [h]
  · intro cl₀ config h hl
    unfold getToken
    rw [h]
    dsimp only
    rw [hl]
  · intro cl₀ config data h hl hp
    unfold getToken
    rw [h]
    dsimp only
    rw [hl]
    simp [hp]

/-- C6 witness: storing and reading back `tok1` for `example.com` at uri
`/acme/x` in an initially empty cluster. -/
theorem C6_setToken_getToken_roundtrip_witness :
    ∃ cl₁,
      setToken "acme/tokens" ⟨[], [], []⟩ "example.com" "/acme/x" "tok1" =
        .ok cl₁ ∧
      getToken "acme/tokens" cl₁ "example.com" "/acme/x" = "tok1" := by
  refine ⟨_, rfl, ?_⟩
  exact (C6_setToken_getToken_roundtrip "acme/tokens" "acme" "tokens"
    "example.com" "/acme/x" "tok1" ⟨[], [], []⟩ rfl).1 (by decide) _ rfl

/-- C4 counterexample: the designated secret is present but its key entry
is absent; `getKey` is then a hard error — it does not generate, persist
and return a fresh key as the claim reads for an absent key entry. -/
theorem C4_getKey_counterexample :
    getSecret clC4 "acme/key" = .ok ⟨⟨"acme", "key"⟩, "", []⟩ ∧
    List.lookup tlsPrivateKeyKey ([] : List (String × Bytes)) = none ∧
    getKey prims0 "acme/key" clC4 =
      .error "secret acme/key does not have a key" :=
  ⟨rfl, rfl, rfl⟩

/-- C4 (amended): `getKey` returns the stored key when the secret is
present with parseable content; a present secret whose key entry is
missing, whose PEM does not decode, or whose key does not parse is a hard
error; a fresh 2048-bit key is generated, persisted under `tls.key` via
create-or-update into the designated secret and returned only when the
secret object itself is absent. -/
theorem C4_getKey_generation_only_on_absence
    (pr : CryptoPrims) (keyName : String) (cl : Cluster) :
    (∀ secret pemKey der k,
        getSecret cl keyName = .ok secret →
        secret.data.lookup tlsPrivateKeyKey = some pemKey →
        pr.pemDecode pemKey = some der →
        pr.parsePKCS1PrivateKey der = .ok k →
        getKey pr keyName cl = .ok (k, cl)) ∧
    (∀ secret, getSecret cl keyName = .ok secret →
        secret.data.lookup tlsPrivateKeyKey = none →
        ∃ e, getKey pr keyName cl = .error e) ∧
    (∀ secret pemKey, getSecret cl keyName = .ok secret →
        secret.data.lookup tlsPrivateKeyKey = some pemKey →
        pr.pemDecode pemKey = none →
        ∃ e, getKey pr keyName cl = .error e) ∧
    (∀ secret pemKey der e, getSecret cl keyName = .ok secret →
        secret.data.lookup tlsPrivateKeyKey = some pemKey →
        pr.pemDecode pemKey = some der →
        pr.parsePKCS1PrivateKey der = .error e →
        ∃ e2, getKey pr keyName cl = .error e2) ∧
    (∀ e ns nm k, getSecret cl keyName = .error e →
        splitMetaNamespaceKey keyName = .ok (ns, nm) →
        pr.generateKey 2048 = .ok k →
        getKey pr keyName cl = .ok (k, createOrUpdateSecret cl
          ⟨⟨ns, nm⟩, "", [(tlsPrivateKeyKey,
             pr.pemEncodeRSA (pr.marshalPKCS1PrivateKey k))]⟩)) := by
  refine ⟨?_, ?_, ?_, ?_, ?_⟩
  · intro secret pemKey der k h1 h2 h3 h4
    unfold getKey
    rw [h1]; dsimp only; rw [h2]; dsimp only; rw [h3]; dsimp only; rw [h4]
  · intro secret h1 h2
    unfold getKey
    rw [h1]; dsimp only; rw [h2]
    exact ⟨_, rfl⟩
  · intro secret pemKey h1 h2 h3
    unfold getKey
    rw [h1]; dsimp only; rw [h2]; dsimp only; rw [h3]
    exact ⟨_, rfl⟩
  · intro secret pemKey der e h1 h2 h3 h4
    unfold getKey
    rw [h1]; dsimp only; rw [h2]; dsimp only; rw [h3]; dsimp only; rw [h4]
    exact ⟨_, rfl⟩
  · intro e ns nm k h1 h2 h3
    unfold getKey
    rw [h1]; dsimp only; rw [h2]; dsimp only; rw [h3]

/-- C4 witness: in an empty cluster the key is generated with 2048 bits,
persisted and returned. -/
theorem C4_getKey_generation_only_on_absence_witness :
    getKey prims0 "acme/key" ⟨[], [], []⟩ =
      .ok (2048, createOrUpdateSecret ⟨[], [], []⟩
        ⟨⟨"acme", "key"⟩, "", [(tlsPrivateKeyKey,
           prims0.pemEncodeRSA (prims0.marshalPKCS1PrivateKey 2048))]⟩) :=
  (C4_getKey_generation_only_on_absence prims0 "acme/key"
    ⟨[], [], []⟩).2.2.2.2 _ "acme" "key" 2048 rfl rfl rfl

/-- C8: `getTLSSecretContent` yields a parsed certificate/key pair exactly
when the secret exists, both the `tls.crt` and `tls.key` entries are
present, both PEM blocks decode and both parses succeed; by totality of
the `Option` result, every failure yields `none` and never an error. -/
theorem C8_getTLSSecretContent_some_iff
    (pr : CryptoPrims) (cl : Cluster) (name : String) (crt : Certificate)
    (key : RSAKey) :
    getTLSSecretContent pr cl name = some (crt, key) ↔
      ∃ secret pemCrt pemKey derCrt derKey,
        getSecret cl name = .ok secret ∧
        secret.data.lookup tlsCertKey = some pemCrt ∧
        secret.data.lookup tlsPrivateKeyKey = some pemKey ∧
        pr.pemDecode pemCrt = some derCrt ∧
        pr.pemDecode pemKey = some derKey ∧
        pr.parseCertificate derCrt = .ok crt ∧
        pr.parsePKCS1PrivateKey derKey = .ok key := by
  constructor
  · intro h
    unfold getTLSSecretContent at h
    cases hs : getSecret cl name with
    | error e =>
      rw [hs] at h; dsimp only at h; exact Option.noConfusion h
    | ok secret =>
      rw [hs] at h; dsimp only at h
      cases hc : secret.data.lookup tlsCertKey with
      | none =>
        cases hk : secret.data.lookup tlsPrivateKeyKey <;>
          (rw [hc, hk] at h; dsimp only at h; exact Option.noConfusion h)
      | some pemCrt =>
        cases hk : secret.data.lookup tlsPrivateKeyKey with
        | none =>
          rw [hc, hk] at h; dsimp only at h; exact Option.noConfusion h
        | some pemKey =>
          rw [hc, hk] at h; dsimp only at h
          cases hdc : pr.pemDecode pemCrt with
          | none =>
            cases hdk : pr.pemDecode pemKey <;>
              (rw [hdc, hdk] at h; dsimp only at h; exact Option.noConfusion h)
          | some derCrt =>
            cases hdk : pr.pemDecode pemKey with
            | none =>
              rw [hdc, hdk] at h; dsimp only at h; exact Option.noConfusion h
            | some derKey =>
              rw [hdc, hdk] at h; dsimp only at h
              cases hpc : pr.parseCertificate derCrt with
              | error e =>
                cases hpk : pr.parsePKCS1PrivateKey derKey <;>
                  (rw [hpc, hpk] at h; dsimp only at h;
                   exact Option.noConfusion h)
              | ok crt1 =>
                cases hpk : pr.parsePKCS1PrivateKey derKey with
                | error e =>
                  rw [hpc, hpk] at h; dsimp only at h
                  exact Option.noConfusion h
                | ok key1 =>
                  rw [hpc, hpk] at h; dsimp only at h
                  obtain ⟨rfl, rfl⟩ : crt1 = crt ∧ key1 = key := by
                    simpa using h
                  exact ⟨secret, pemCrt, pemKey, derCrt, derKey, rfl, hc, hk,
                    hdc, hdk, hpc, hpk⟩
  · rintro ⟨secret, pemCrt, pemKey, derCrt, derKey, hs, hc, hk, hdc, hdk,
      hpc, hpk⟩
    unfold getTLSSecretContent
    rw [hs]; dsimp only; rw [hc, hk]; dsimp only; rw [hdc, hdk]; dsimp only
    rw [hpc, hpk]

theorem notifyResync_clear (old cur : Option KObj) (s : CacheState) :
    (notifyResync old cur s).clear = s.clear := by
  unfold notifyResync; split <;> rfl

theorem notifyResync_timers (old cur : Option KObj) (s : CacheState) :
    (notifyResync old cur s).armedNotifyTimers = s.armedNotifyTimers := by
  unfold notifyResync; split <;> rfl

theorem notifyClassifyOld_clear (old cur : Option KObj) (s : CacheState) :
    (notifyClassifyOld old cur s).clear = s.clear := by
  cases old with
  | none => rfl
  | some o =>
    cases o <;> simp only [notifyClassifyOld] <;>
      first
      | rfl
      | (split <;> rfl)

theorem notifyClassifyOld_timers (old cur : Option KObj) (s : CacheState) :
    (notifyClassifyOld old cur s).armedNotifyTimers = s.armedNotifyTimers := by
  cases old with
  | none => rfl
  | some o =>
    cases o <;> simp only [notifyClassifyOld] <;>
      first
      | rfl
      | (split <;> rfl)

theorem notifyClassifyCur_clear (old cur : Option KObj) (s : CacheState) :
    (notifyClassifyCur old cur s).clear = s.clear := by
  cases cur with
  | none => rfl
  | some o =>
    cases o <;> simp only [notifyClassifyCur] <;>
      first
      | rfl
      | (split <;> rfl)
      | (split <;> first | rfl | (split <;> rfl))

theorem notifyClassifyCur_timers (old cur : Option KObj) (s : CacheState) :
    (notifyClassifyCur old cur s).armedNotifyTimers = s.armedNotifyTimers := by
  cases cur with
  | none => rfl
  | some o =>
    cases o <;> simp only [notifyClassifyCur] <;>
      first
      | rfl
      | (split <;> rfl)
      | (split <;> first | rfl | (split <;> rfl))

theorem notifyDebounce_of_clear_false (now : Nat) (s : CacheState)
    (h : s.clear = false) : notifyDebounce now s = s := by
  unfold notifyDebounce
  rw [if_neg]
  simp [h]

theorem notifyDebounce_of_clear_true (now : Nat) (s : CacheState)
    (h : s.clear = true) :
    notifyDebounce now s =
      { s with armedNotifyTimers := s.armedNotifyTimers ++ [now + 500] } := by
  unfold notifyDebounce
  rw [if_pos h]

/-- `Notify` always leaves `clear` unset; only `SyncNewObjects` re-arms
the debounce. -/
theorem notify_clear (now : Nat) (old cur : Option KObj) (s : CacheState) :
    (notify now old cur s).clear = false := rfl

/-- A `Notify` on a state whose debounce is already disarmed does not
touch the armed timers. -/
theorem notify_timers_of_clear_false (now : Nat) (old cur : Option KObj)
    (s : CacheState) (h : s.clear = false) :
    (notify now old cur s).armedNotifyTimers = s.armedNotifyTimers := by
  have hc : (notifyClassifyCur old cur (notifyClassifyOld old cur
      (notifyResync old cur s))).clear = false := by
    rw [notifyClassifyCur_clear, notifyClassifyOld_clear, notifyResync_clear]
    exact h
  unfold notify
  rw [notifyDebounce_of_clear_false _ _ hc]
  dsimp only
  rw [notifyClassifyCur_timers, notifyClassifyOld_timers, notifyResync_timers]

/-- Once the debounce is disarmed, a whole run of `Notify` calls leaves
the armed timers unchanged. -/
theorem notifyRun_timers_of_clear_false :
    ∀ (evs : List (Nat × Option KObj × Option KObj)) (s : CacheState),
      s.clear = false →
      (notifyRun s evs).armedNotifyTimers = s.armedNotifyTimers := by
  intro evs
  induction evs with
  | nil => intro s _; rfl
  | cons e rest ih =>
    intro s h
    show (notifyRun (notify e.1 e.2.1 e.2.2 s) rest).armedNotifyTimers = _
    rw [ih _ (notify_clear _ _ _ _), notify_timers_of_clear_false _ _ _ _ h]

/-- C2 (amended): for every burst of `Notify` calls starting from a state
with the debounce armable (`clear = true`) and no pending timer, exactly
one timer is armed, and it fires 500 ms after the first event of the
burst; the later events of the window neither add a timer nor postpone
the armed one. -/
theorem C2_debounce_fires_once_after_first_event
    (s : CacheState) (e : Nat × Option KObj × Option KObj)
    (evs : List (Nat × Option KObj × Option KObj))
    (hclear : s.clear = true) (htimers : s.armedNotifyTimers = []) :
    (notifyRun s (e :: evs)).armedNotifyTimers = [e.1 + 500] := by
  have hc : (notifyClassifyCur e.2.1 e.2.2 (notifyClassifyOld e.2.1 e.2.2
      (notifyResync e.2.1 e.2.2 s))).clear = true := by
    rw [notifyClassifyCur_clear, notifyClassifyOld_clear, notifyResync_clear]
    exact hclear
  show (notifyRun (notify e.1 e.2.1 e.2.2 s) evs).armedNotifyTimers = _
  rw [notifyRun_timers_of_clear_false _ _ (notify_clear _ _ _ _)]
  unfold notify
  rw [notifyDebounce_of_clear_true _ _ hc]
  dsimp only
  rw [notifyClassifyCur_timers, notifyClassifyOld_timers, notifyResync_timers,
    htimers]
  rfl

/-- C2 counterexample: three `Notify` events at t = 0, 100 and 490 ms with
no intervening sync arm exactly one timer, and its fire time is 500 ms —
500 ms after the first event — not approximately 990 ms (500 ms after the
last event), as the claim states. -/
theorem C2_debounce_counterexample :
    (notifyRun initialCacheState
       [(0, none, some (.pod podX)), (100, none, some (.pod podX)),
        (490, none, some (.pod podX))]).armedNotifyTimers = [500] ∧
    (500 : Nat) ≠ 990 ∧ ¬ (900 ≤ (500 : Nat)) :=
  ⟨rfl, by decide, by decide⟩

/-- C2 witness: the same three-event burst, through the general theorem. -/
theorem C2_debounce_fires_once_witness :
    (notifyRun initialCacheState
       [(0, none, some (.pod podX)), (100, none, some (.pod podX)),
        (490, none, some (.pod podX))]).armedNotifyTimers = [0 + 500] :=
  C2_debounce_fires_once_after_first_event initialCacheState
    (0, none, some (.pod podX))
    [(100, none, some (.pod podX)), (490, none, some (.pod podX))] rfl rfl

/-- C1: `syncNewObjects` does not clear the services dirty lists — a
service added before the sync is still reported by `getDirtyServices`
after it (and after a second sync with no intervening event), while the
ingress lists, for contrast, do come back empty. -/
theorem C1_sync_does_not_clear_services :
    getDirtyServices (syncNewObjects (syncNewObjects
        (notify 0 none (some (.svc svcX)) initialCacheState))) =
      ([], [], [svcX]) ∧
    ([svcX] : List Service) ≠ [] ∧
    getDirtyIngresses (syncNewObjects (syncNewObjects
        (notify 0 none (some (.svc svcX)) initialCacheState))) =
      ([], [], []) ∧
    needResyncState (syncNewObjects (syncNewObjects
        (notify 0 none (some (.svc svcX)) initialCacheState))) = false :=
  ⟨rfl, by simp, rfl, rfl⟩

/-- C3: a window holding exactly one secret-delete event classifies it
correctly (delete list, synchronous credential-invalidation hook call),
but the dirty services lists are not the multiset union of the window's
classified events: the service added in the previous window leaks through
the sync into the new window's snapshot. -/
theorem C3_dirty_lists_leak_services :
    getDirtyServices (notifyRun (syncNewObjects
        (notify 0 none (some (.svc svcX)) initialCacheState))
        [(600, some (.sec secX), none)]) = ([], [], [svcX]) ∧
    ([svcX] : List Service) ≠ [] ∧
    getDirtySecrets (notifyRun (syncNewObjects
        (notify 0 none (some (.svc svcX)) initialCacheState))
        [(600, some (.sec secX), none)]) = ([secX], [], []) ∧
    (notifyRun (syncNewObjects
        (notify 0 none (some (.svc svcX)) initialCacheState))
        [(600, some (.sec secX), none)]).deleteSecretCalls = ["ns1/sec1"] :=
  ⟨rfl, by simp, rfl, rfl⟩

end K8sCache
